import Mathlib

/-!
Verification of the Polymarket scalping-market evaluator.

The definitions below are a shallow embedding of the TypeScript source in
src/server/index.ts.  JavaScript numbers are modelled as real numbers;
Math.log10 is modelled as Real.logb 10; Math.min / Math.max / Math.abs map to
min / max / abs on the reals; Date.now() is made an explicit parameter (the
current time in milliseconds) of every function that reads the clock, and
new Date(market.endDate).getTime() is modelled by storing the resolution
timestamp of a market directly in milliseconds.  JSON-encoded fields are
modelled by the value their parse produces, with a dedicated constructor for
the parse throwing (see Market.outcomePricesParsed and, for the NaN-producing
branch of parseFloat, the separate computeMidPriceJs model further down).
JavaScript string operations (toLowerCase, includes, regular-expression
tests) are modelled over the character lists of the strings involved.
-/

namespace PolyM

/-- Model of JavaScript String.prototype.toLowerCase, as the character list of
the lowered string (ASCII lowering; the keyword lists are ASCII). -/
def lowerChars (s : String) : List Char :=
  s.data.map Char.toLower

/-- Model of JavaScript String.prototype.includes for character lists:
sub occurs contiguously somewhere in l. -/
def containsChars (l sub : List Char) : Bool :=
  (List.range (l.length + 1)).any fun i => sub.isPrefixOf (l.drop i)

/-- Model of lowerQuestion.includes(kw) for a question that the source first
lowercases: containsKw question kw decides whether kw occurs in the lowered
question. -/
def containsKw (question kw : String) : Bool :=
  containsChars (lowerChars question) kw.data

/-- The apostrophe character, kept out of string literals. -/
def apoStr : String := String.mk [Char.ofNat 39]

/-- JUMP_RISK_KEYWORDS, transcribed from src/server/index.ts lines 45 to 78. -/
def JUMP_RISK_KEYWORDS : List String := [
  "regime", "overthrow", "coup", "revolution", "collapse", "fall of",
  "supreme leader", "khamenei", "putin ", "xi jinping", "kim jong",
  "maduro", "zelensky", "netanyahu",
  "war ", "strike ", "nuclear", "invade", "invasion", "attack on",
  "bombing", "missile", "assassination", "assassinate", "ceasefire",
  "hostage", "martial law", "military action",
  "fed ", "federal reserve", "fomc", "rate cut", "rate hike", "basis points",
  "interest rate", "powell", "ecb ", "central bank", "monetary policy",
  "tariff", "sanction",
  "supreme court", "ruling", "verdict", "indictment", "convicted",
  "sentenced", "court decision", "lawsuit", "appeal", "pardon",
  "primary", "nomination", "nominee", "endorsement", "withdraw",
  "drop out", "electoral", "ballot", "caucus", "delegate",
  "impeach", "resign", "cabinet", "presidential election", "win the election",
  "election winner", "elected president",
  "by midnight", "by end of day", "before january", "before february",
  "before march", "before april", "before may", "before june",
  "before july", "before august", "before september", "before october",
  "before november", "before december",
  "by january", "by february", "by march", "by april", "by may", "by june",
  "by july", "by august", "by september", "by october", "by november",
  "by december"]

/-- STRUCTURAL_DECAY_KEYWORDS, transcribed from src/server/index.ts lines 80
to 106 (the entry written with an escaped apostrophe in the source is built
here with apoStr). -/
def STRUCTURAL_DECAY_KEYWORDS : List String := [
  "win the premier league", "win the champions league", "win the world series",
  "win the nba", "win the nfl", "win the stanley cup",
  "world cup winner", "championship winner", "league winner",
  "tournament winner",
  "win the title", "crowned champion", "season winner", "win the championship",
  "win the playoffs", "make the playoffs", "win the division",
  "win the conference", "win the cup", "win the series",
  "win super bowl", "super bowl 20", "super bowl champion", "super bowl winner",
  "english premier league", "premier league?", "la liga", "bundesliga",
  "serie a",
  "ligue 1", "eredivisie",
  "ballon d" ++ apoStr ++ "or", "mvp ", "rookie of the year", "cy young",
  "heisman",
  "golden boot", "golden glove", "player of the year", "coach of the year",
  "defensive player", "most improved",
  "ever ", "will ever", "lifetime", "career", "all-time", "hall of fame",
  "finish first", "finish last", "relegated", "promoted", "qualify for"]

/-- Month names used by the countdown regular expressions. -/
def monthNames : List String := [
  "january", "february", "march", "april", "may", "june",
  "july", "august", "september", "october", "november", "december"]

/-- Model of testing the regular expression pre + a digit-run of length 4
against a string: some position carries pre followed by at least four digits
(the by yyyy and before yyyy countdown patterns). -/
def preThen4Digits (l : List Char) (pre : List Char) : Bool :=
  (List.range (l.length + 1)).any fun i =>
    pre.isPrefixOf (l.drop i) &&
      (((l.drop (i + pre.length)).take 4).length == 4) &&
      ((l.drop (i + pre.length)).take 4).all Char.isDigit

/-- Helper for the by d{1,2}/d{1,2} pattern: the character list starts with
one or two digits, a slash, and one more digit. -/
def slashDigits : List Char → Bool
  | d1 :: rest =>
    d1.isDigit &&
      (match rest with
       | c :: rest2 =>
         (c == Char.ofNat 47 &&
           (match rest2 with | d2 :: _ => d2.isDigit | [] => false)) ||
         (c.isDigit &&
           (match rest2 with
            | c2 :: d2 :: _ => c2 == Char.ofNat 47 && d2.isDigit
            | _ => false))
       | [] => false)
  | [] => false

/-- Model of testing the regular expression by d{1,2}/d{1,2}. -/
def bySlashDate (l : List Char) : Bool :=
  (List.range (l.length + 1)).any fun i =>
    ("by ".data).isPrefixOf (l.drop i) && slashDigits (l.drop (i + 3))

/-- Model of testing a regular expression pre .+ post: pre occurs at some
position i, post occurs at some position j, and at least one character lies
between the end of pre and the start of post. -/
def sandwichB (l pre post : List Char) : Bool :=
  (List.range (l.length + 1)).any fun i =>
    pre.isPrefixOf (l.drop i) &&
      ((List.range (l.length + 1)).any fun j =>
        decide (i + pre.length + 1 ≤ j) && post.isPrefixOf (l.drop j))

/-- The verbs of the single-event regular expressions (will .+ verb). -/
def singleEventVerbs : List String :=
  ["announce", "decision", "rule on", "vote on", "result",
   "confirm", "approve", "reject", "pass", "veto"]

/-- Model of hasCountdown in calculateEventResolutionPenalty, source lines
120 to 130: the lowered question matches one of the countdown patterns. -/
def hasCountdownB (lq : List Char) : Bool :=
  (monthNames.any fun mo => containsChars lq ("by " ++ mo).data) ||
  (monthNames.any fun mo => containsChars lq ("before " ++ mo).data) ||
  containsChars lq "by end of".data ||
  containsChars lq "by midnight".data ||
  bySlashDate lq ||
  preThen4Digits lq "by ".data ||
  preThen4Digits lq "before ".data

/-- Model of isSingleEvent in calculateEventResolutionPenalty, source lines
133 to 146. -/
def isSingleEventB (lq : List Char) : Bool :=
  singleEventVerbs.any fun v => sandwichB lq "will ".data (" " ++ v).data

/-- calculateEventResolutionPenalty, source lines 116 to 152: 0.3 for
countdown phrasing, 0.5 for single-decisive-event phrasing, else 1. -/
noncomputable def calculateEventResolutionPenalty (question : String) : ℝ :=
  if hasCountdownB (lowerChars question) then 0.3
  else if isSingleEventB (lowerChars question) then 0.5
  else 1.0

/-- calculateJumpRiskPenalty, source lines 158 to 176.  The source guards the
weekly change with a JavaScript falsy-default (change or zero), which is the
identity on real numbers. -/
noncomputable def calculateJumpRiskPenalty (question : String)
    (oneWeekPriceChange : ℝ) : ℝ :=
  if JUMP_RISK_KEYWORDS.any fun kw => containsKw question kw then 0
  else if 0.30 < |oneWeekPriceChange| then 0.2
  else if 0.20 < |oneWeekPriceChange| then 0.5
  else if 0.10 < |oneWeekPriceChange| then 0.8
  else 1.0

/-- calculateDriftPenalty, source lines 182 to 203. -/
noncomputable def calculateDriftPenalty (currentPrice oneWeekPriceChange : ℝ) :
    ℝ :=
  if currentPrice < 0.15 ∧ oneWeekPriceChange < -0.05 then 0
  else if 0.85 < currentPrice ∧ 0.05 < oneWeekPriceChange then 0
  else if currentPrice < 0.15 ∨ 0.85 < currentPrice then 0.5
  else if |oneWeekPriceChange| < 0.03 then 1.2
  else 1.0

/-- calculateVolumeChurnScore, source lines 209 to 229.  volume7d or 1 is the
JavaScript falsy-default, modelled by the zero test; Math.log10 is modelled by
Real.logb 10 (the two agree on positive arguments, the only ones the data
model produces). -/
noncomputable def calculateVolumeChurnScore (volume24hr volume7d : ℝ) : ℝ :=
  let actualR := volume24hr / (if volume7d = 0 then 1 else volume7d)
  if 0.3 < actualR then
    max 20 (100 - (actualR - 1 / 7) * 150)
  else
    (min 100 (Real.logb 10 (volume24hr + 1) * 20)) *
      max 0.5 (min 1.3 (1 - |actualR - 1 / 7| * 4))

/-- calculateDepthQualityScore, source lines 235 to 260. -/
noncomputable def calculateDepthQualityScore
    (bidDepth1 askDepth1 bidDepth5 askDepth5 : ℝ) : ℝ :=
  let totalDepth := bidDepth5 + askDepth5
  if totalDepth = 0 then 0
  else if bidDepth1 = 0 ∨ askDepth1 = 0 then 0
  else
    (min 100 (Real.logb 10 (totalDepth + 1) * 30)) *
      (1 - |bidDepth5 - askDepth5| / (bidDepth5 + askDepth5)) *
      min 1.3 (1 + Real.logb 10 ((bidDepth5 - bidDepth1) +
        (askDepth5 - askDepth1) + 2) * 0.1)

/-- The Market snapshot, source lines 20 to 34, restricted to the fields the
evaluator reads.  outcomePricesParsed models the JavaScript expression
parseFloat(JSON.parse(outcomePrices)[0]): none models JSON.parse throwing
(the catch branch), some x the parse producing the number x; the
NaN-producing success case is modelled separately by computeMidPriceJs.
endDateMs models new Date(endDate).getTime(). -/
structure Market where
  question : String
  volume24hr : ℝ
  volume1wk : ℝ
  outcomePricesParsed : Option ℝ
  endDateMs : ℝ
  orderPriceMinTickSize : ℝ
  feesEnabled : Bool
  oneWeekPriceChange : ℝ

/-- The hard-exclusion reasons of calculateScalpingScore, as a structured
variant.  The source renders each as a human-readable string; the keyword
reasons carry the matched keyword and the price-edge reason carries the
offending mid price (the source interpolates them into the string). -/
inductive Reason where
  | feesEnabled
  | spreadTooWide
  | jumpRisk (kw : String)
  | structuralDecay (kw : String)
  | priceAtEdge (midPrice : ℝ)
  | lessThan48Hours
  | oneSidedBook
  | directionalDrift
  | highWeeklyVolatility

/-- The value returned by calculateScalpingScore, source line 273. -/
structure EvalResult where
  score : ℝ
  exclusionReason : Option Reason

/-- market.orderPriceMinTickSize or 0.01, the JavaScript falsy-default of
source lines 274, 521, 570 and 593. -/
noncomputable def effTickSize (m : Market) : ℝ :=
  if m.orderPriceMinTickSize = 0 then 0.01 else m.orderPriceMinTickSize

/-- The midPrice computation of source lines 303 to 308 on the idealized
(real-valued) parse model: 0.5 when JSON.parse throws, the parsed first
outcome price otherwise. -/
noncomputable def midPriceOf (m : Market) : ℝ :=
  match m.outcomePricesParsed with
  | none => 0.5
  | some x => x

/-- hoursToRes of source line 315, with Date.now() as the explicit parameter
now (milliseconds). -/
noncomputable def hoursToResOf (now : ℝ) (m : Market) : ℝ :=
  (m.endDateMs - now) / 3600000

/-- The jump-risk keyword search of source line 291: the first keyword of
JUMP_RISK_KEYWORDS contained in the lowered question. -/
def findJumpKw (question : String) : Option String :=
  JUMP_RISK_KEYWORDS.find? fun kw => containsKw question kw

/-- The structural-decay keyword search of source line 297. -/
def findDecayKw (question : String) : Option String :=
  STRUCTURAL_DECAY_KEYWORDS.find? fun kw => containsKw question kw

/-- The spread-stability component, source lines 340 to 344. -/
noncomputable def spreadScoreOf (spreadInTicks : ℝ) : ℝ :=
  if spreadInTicks ≤ 1.2 then 100
  else if spreadInTicks ≤ 2.0 then 80
  else if spreadInTicks ≤ 3.0 then 50
  else 20

/-- The time-safety component, source lines 366 to 371. -/
noncomputable def timeScoreOf (hoursToRes : ℝ) : ℝ :=
  if hoursToRes < 72 then 40
  else if hoursToRes < 24 * 7 then 70
  else if hoursToRes < 24 * 60 then 100
  else if hoursToRes < 24 * 180 then 80
  else 60

/-- parseFloat(x.toFixed(2)) of source line 390: rounding to two decimal
places. -/
noncomputable def toFixed2 (x : ℝ) : ℝ :=
  (round (x * 100) : ℤ) / 100

/-- calculateScalpingScore, source lines 266 to 393: the nine-step
hard-exclusion ladder followed by the weighted composite.  The weekly change
appears with a falsy-default (change or zero) in the source, the identity on
real numbers. -/
noncomputable def calculateScalpingScore (now : ℝ) (m : Market)
    (spread bidDepth1 askDepth1 bidDepth5 askDepth5 : ℝ) : EvalResult :=
  if m.feesEnabled then ⟨0, some Reason.feesEnabled⟩
  else if 5 < spread / effTickSize m then ⟨0, some Reason.spreadTooWide⟩
  else
    match findJumpKw m.question with
    | some kw => ⟨0, some (Reason.jumpRisk kw)⟩
    | none =>
      match findDecayKw m.question with
      | some kw => ⟨0, some (Reason.structuralDecay kw)⟩
      | none =>
        if midPriceOf m < 0.08 ∨ 0.92 < midPriceOf m then
          ⟨0, some (Reason.priceAtEdge (midPriceOf m))⟩
        else if hoursToResOf now m < 48 then ⟨0, some Reason.lessThan48Hours⟩
        else if bidDepth1 = 0 ∨ askDepth1 = 0 then
          ⟨0, some Reason.oneSidedBook⟩
        else if calculateDriftPenalty (midPriceOf m) m.oneWeekPriceChange = 0
          then ⟨0, some Reason.directionalDrift⟩
        else if calculateJumpRiskPenalty m.question m.oneWeekPriceChange = 0
          then ⟨0, some Reason.highWeeklyVolatility⟩
        else
          ⟨toFixed2 (max 0
            ((spreadScoreOf (spread / effTickSize m) * 0.25 +
              calculateVolumeChurnScore m.volume24hr m.volume1wk * 0.25 +
              (max 0 (100 - |midPriceOf m - 0.5| * 180) *
                calculateDriftPenalty (midPriceOf m) m.oneWeekPriceChange) *
                  0.20 +
              calculateDepthQualityScore bidDepth1 askDepth1 bidDepth5
                askDepth5 * 0.15 +
              timeScoreOf (hoursToResOf now m) * 0.10) *
              calculateEventResolutionPenalty m.question *
              calculateJumpRiskPenalty m.question m.oneWeekPriceChange)),
            none⟩

/-- One order-book level, source line 37: price and size arrive as decimal
strings and are read through parseFloat; the embedding stores the parsed
numbers. -/
structure Level where
  price : ℝ
  size : ℝ

instance : Inhabited Level := ⟨⟨0, 0⟩⟩

/-- A raw order book, source lines 36 to 39. -/
structure OrderBook where
  bids : List Level
  asks : List Level

/-- The two sides of a book, the side argument of getDepth. -/
inductive Side where
  | bids
  | asks

/-- getDepth, source lines 568 to 577: the size-sum of every level of the
requested side within ticks tick-distances of the base price.  The closure in
the source captures the sorted sides and the market (for its tick size);
they are explicit arguments here. -/
noncomputable def getDepth (m : Market) (sortedBids sortedAsks : List Level)
    (ticks : ℝ) (side : Side) (basePrice : ℝ) : ℝ :=
  let arr := match side with | Side.bids => sortedBids | Side.asks => sortedAsks
  let limitPrice :=
    match side with
    | Side.bids => basePrice - ticks * effTickSize m
    | Side.asks => basePrice + ticks * effTickSize m
  ((arr.filter fun item =>
      match side with
      | Side.bids => decide (limitPrice ≤ item.price)
      | Side.asks => decide (item.price ≤ limitPrice)).map Level.size).sum

/-- Bids sorted descending by price, source line 560 (JavaScript sort with
comparator pb - pa; ties are unordered in the source and resolved arbitrarily
here). -/
noncomputable def sortBidsDesc (bids : List Level) : List Level :=
  bids.insertionSort fun x y => y.price ≤ x.price

/-- Asks sorted ascending by price, source line 561. -/
noncomputable def sortAsksAsc (asks : List Level) : List Level :=
  asks.insertionSort fun x y => x.price ≤ y.price

/-- The per-market record produced by getScalpingMarkets, source lines 514 to
540, restricted to the fields a claim mentions (spread, best prices, score
and exclusion reason; the diagnostic details block is not modelled). -/
structure Processed where
  spread : Option ℝ
  bestBid : Option ℝ
  bestAsk : Option ℝ
  scalpingScore : ℝ
  exclusionReason : Option Reason

/-- The per-market body of getScalpingMarkets, source lines 513 to 617.  The
order-book fetch is an explicit input: none models a failed fetch, a failed
clobTokenIds parse or an absent token id (all of which leave the book section
unexecuted in the source).  When either side of the fetched book is empty the
source also skips the book section, so the defaults (null spread, score 0, no
reason) survive and calculateScalpingScore is never called. -/
noncomputable def processMarket (now : ℝ) (m : Market)
    (book : Option OrderBook) : Processed :=
  match book with
  | none => ⟨none, none, none, 0, none⟩
  | some b =>
    if b.bids.length = 0 ∨ b.asks.length = 0 then ⟨none, none, none, 0, none⟩
    else
      let sortedBids := sortBidsDesc b.bids
      let sortedAsks := sortAsksAsc b.asks
      let bestBid := sortedBids.headI.price
      let bestAsk := sortedAsks.headI.price
      let spread := bestAsk - bestBid
      let bidDepth1 := getDepth m sortedBids sortedAsks 1 Side.bids bestBid
      let askDepth1 := getDepth m sortedBids sortedAsks 1 Side.asks bestAsk
      let bidDepth5 := getDepth m sortedBids sortedAsks 5 Side.bids bestBid
      let askDepth5 := getDepth m sortedBids sortedAsks 5 Side.asks bestAsk
      let result := calculateScalpingScore now m spread bidDepth1 askDepth1
        bidDepth5 askDepth5
      ⟨some spread, some bestBid, some bestAsk, result.score,
        result.exclusionReason⟩

/-- getScalpingMarkets, source lines 500 to 627, after the market-universe
fetch: every market is processed independently against its own order-book
fetch result, then the batch is sorted by descending scalping score (source
line 622). -/
noncomputable def scalpingPipeline (now : ℝ)
    (fetch : Market → Option OrderBook) (ms : List Market) : List Processed :=
  (ms.map fun m => processMarket now m (fetch m)).insertionSort
    fun x y => y.scalpingScore ≤ x.scalpingScore

/-- A JavaScript number as produced by parseFloat: either a real value or
NaN. -/
inductive JsNum where
  | nan
  | num (x : ℝ)

/-- The three outcomes of JSON.parse(market.outcomePrices) followed by
indexing and parseFloat, source line 305: the parse throws; the parse
succeeds but the first element is not numeric (parseFloat returns NaN without
throwing); or a number is produced. -/
inductive OutcomeParse where
  | thrown
  | firstElemNonNumeric
  | firstElemNum (x : ℝ)

/-- The midPrice computation of source lines 303 to 308 with JavaScript
parseFloat semantics: the catch branch (and only it) substitutes 0.5; a
non-numeric first element flows through as NaN. -/
noncomputable def computeMidPriceJs : OutcomeParse → JsNum
  | OutcomeParse.thrown => JsNum.num 0.5
  | OutcomeParse.firstElemNonNumeric => JsNum.nan
  | OutcomeParse.firstElemNum x => JsNum.num x

/-- The score produced by the eligible branch of calculateScalpingScore
(source lines 337 to 392), named so that theorems can refer to it. -/
noncomputable def eligibleScore (now : ℝ) (m : Market)
    (spread bidDepth1 askDepth1 bidDepth5 askDepth5 : ℝ) : ℝ :=
  toFixed2 (max 0
    ((spreadScoreOf (spread / effTickSize m) * 0.25 +
      calculateVolumeChurnScore m.volume24hr m.volume1wk * 0.25 +
      (max 0 (100 - |midPriceOf m - 0.5| * 180) *
        calculateDriftPenalty (midPriceOf m) m.oneWeekPriceChange) * 0.20 +
      calculateDepthQualityScore bidDepth1 askDepth1 bidDepth5 askDepth5 *
        0.15 +
      timeScoreOf (hoursToResOf now m) * 0.10) *
      calculateEventResolutionPenalty m.question *
      calculateJumpRiskPenalty m.question m.oneWeekPriceChange))

/-- The composite of an Eligible market as the specification words it
(section 4.4): five weighted components, the drift multiplier entering
exactly once, inside the mean-reversion component 100 minus 180 times the
distance of the mid price from one half (clamped at 0); the weighted sum is
then multiplied by the event-resolution and jump-risk multipliers, floored
at 0 and rounded to two decimals.  This definition follows the
specification text and is compared against the source-derived evaluator. -/
noncomputable def specCompositeScore (now : ℝ) (m : Market)
    (spread bidDepth1 askDepth1 bidDepth5 askDepth5 : ℝ) : ℝ :=
  toFixed2 (max 0
    ((spreadScoreOf (spread / effTickSize m) * 0.25 +
      calculateVolumeChurnScore m.volume24hr m.volume1wk * 0.25 +
      (max 0 (100 - 180 * |midPriceOf m - 0.5|) *
        calculateDriftPenalty (midPriceOf m) m.oneWeekPriceChange) * 0.20 +
      calculateDepthQualityScore bidDepth1 askDepth1 bidDepth5 askDepth5 *
        0.15 +
      timeScoreOf (hoursToResOf now m) * 0.10) *
      calculateEventResolutionPenalty m.question *
      calculateJumpRiskPenalty m.question m.oneWeekPriceChange))

/-- Scenario 3 of the specification: a structural-decay question whose first
outcome price parses to 0.04.  Field order: question, 24h volume, 7d volume,
parsed first outcome price, resolution time in ms, tick size, fee flag,
one-week change. -/
noncomputable def mkScenario3 : Market :=
  ⟨"Will Team X win the championship?", 0, 0, some 0.04, 0, 0.01, false, 0⟩

/-- A keyword-free market with fees enabled. -/
noncomputable def mkSunnyFee : Market :=
  ⟨"Is it sunny?", 0, 0, some 0.5, 0, 0.01, true, 0⟩

/-- A keyword-free, fee-free market used to exercise the wide-spread
exclusion. -/
noncomputable def mkSunnyWide : Market :=
  ⟨"Is it sunny?", 0, 0, some 0.5, 0, 0.01, false, 0⟩

/-- A keyword-free market that passes every hard exclusion when evaluated at
time 0 with a both-sided book: mid price one half, one thousand hours of
runway, no weekly drift. -/
noncomputable def mkEligible : Market :=
  ⟨"Is it sunny?", 0, 0, some 0.5, 3600000000, 0.01, false, 0⟩

/-- An eligible market tuned so that every logarithm in the composite is
exact: 24h volume 99999 against 7d volume 699993 puts the volume ratio at
exactly one seventh with log10(volume24hr + 1) = 5. -/
noncomputable def mkHighScore : Market :=
  ⟨"Is it sunny?", 99999, 699993, some 0.5, 3600000000, 0.01, false, 0⟩

/-- A market resolving 100 hours after epoch, used to show the clock
dependence of the evaluator. -/
noncomputable def mkHundredHours : Market :=
  ⟨"Is it sunny?", 0, 0, some 0.5, 360000000, 0.01, false, 0⟩

/-- A crossed order book: the only ask (0.51) sits strictly below the only
bid (0.52). -/
noncomputable def bookCrossed : OrderBook :=
  ⟨[⟨0.52, 4.5⟩], [⟨0.51, 4.5⟩]⟩

theorem scalp_fees (now : ℝ) (m : Market) (sp b1 a1 b5 a5 : ℝ)
    (hf : m.feesEnabled = true) :
    calculateScalpingScore now m sp b1 a1 b5 a5 =
      ⟨0, some Reason.feesEnabled⟩ := by
  simp [calculateScalpingScore, hf]

theorem scalp_wide (now : ℝ) (m : Market) (sp b1 a1 b5 a5 : ℝ)
    (hf : m.feesEnabled = false) (hs : 5 < sp / effTickSize m) :
    calculateScalpingScore now m sp b1 a1 b5 a5 =
      ⟨0, some Reason.spreadTooWide⟩ := by
  unfold calculateScalpingScore
  rw [if_neg (by simp [hf]), if_pos hs]

theorem scalp_jump (now : ℝ) (m : Market) (sp b1 a1 b5 a5 : ℝ)
    (hf : m.feesEnabled = false) (hs : ¬ 5 < sp / effTickSize m)
    (kw : String) (hj : findJumpKw m.question = some kw) :
    calculateScalpingScore now m sp b1 a1 b5 a5 =
      ⟨0, some (Reason.jumpRisk kw)⟩ := by
  unfold calculateScalpingScore
  rw [if_neg (by simp [hf]), if_neg hs, hj]

theorem scalp_decay (now : ℝ) (m : Market) (sp b1 a1 b5 a5 : ℝ)
    (hf : m.feesEnabled = false) (hs : ¬ 5 < sp / effTickSize m)
    (hj : findJumpKw m.question = none)
    (kw : String) (hd : findDecayKw m.question = some kw) :
    calculateScalpingScore now m sp b1 a1 b5 a5 =
      ⟨0, some (Reason.structuralDecay kw)⟩ := by
  unfold calculateScalpingScore
  rw [if_neg (by simp [hf]), if_neg hs, hj, hd]

theorem scalp_edge (now : ℝ) (m : Market) (sp b1 a1 b5 a5 : ℝ)
    (hf : m.feesEnabled = false) (hs : ¬ 5 < sp / effTickSize m)
    (hj : findJumpKw m.question = none) (hd : findDecayKw m.question = none)
    (he : midPriceOf m < 0.08 ∨ 0.92 < midPriceOf m) :
    calculateScalpingScore now m sp b1 a1 b5 a5 =
      ⟨0, some (Reason.priceAtEdge (midPriceOf m))⟩ := by
  unfold calculateScalpingScore
  rw [if_neg (by simp [hf]), if_neg hs, hj, hd, if_pos he]

theorem scalp_hours (now : ℝ) (m : Market) (sp b1 a1 b5 a5 : ℝ)
    (hf : m.feesEnabled = false) (hs : ¬ 5 < sp / effTickSize m)
    (hj : findJumpKw m.question = none) (hd : findDecayKw m.question = none)
    (he : ¬ (midPriceOf m < 0.08 ∨ 0.92 < midPriceOf m))
    (hh : hoursToResOf now m < 48) :
    calculateScalpingScore now m sp b1 a1 b5 a5 =
      ⟨0, some Reason.lessThan48Hours⟩ := by
  unfold calculateScalpingScore
  rw [if_neg (by simp [hf]), if_neg hs, hj, hd, if_neg he, if_pos hh]

theorem scalp_oneSided (now : ℝ) (m : Market) (sp b1 a1 b5 a5 : ℝ)
    (hf : m.feesEnabled = false) (hs : ¬ 5 < sp / effTickSize m)
    (hj : findJumpKw m.question = none) (hd : findDecayKw m.question = none)
    (he : ¬ (midPriceOf m < 0.08 ∨ 0.92 < midPriceOf m))
    (hh : ¬ hoursToResOf now m < 48) (hb : b1 = 0 ∨ a1 = 0) :
    calculateScalpingScore now m sp b1 a1 b5 a5 =
      ⟨0, some Reason.oneSidedBook⟩ := by
  unfold calculateScalpingScore
  rw [if_neg (by simp [hf]), if_neg hs, hj, hd, if_neg he, if_neg hh,
    if_pos hb]

theorem scalp_drift (now : ℝ) (m : Market) (sp b1 a1 b5 a5 : ℝ)
    (hf : m.feesEnabled = false) (hs : ¬ 5 < sp / effTickSize m)
    (hj : findJumpKw m.question = none) (hd : findDecayKw m.question = none)
    (he : ¬ (midPriceOf m < 0.08 ∨ 0.92 < midPriceOf m))
    (hh : ¬ hoursToResOf now m < 48) (hb : ¬ (b1 = 0 ∨ a1 = 0))
    (hdr : calculateDriftPenalty (midPriceOf m) m.oneWeekPriceChange = 0) :
    calculateScalpingScore now m sp b1 a1 b5 a5 =
      ⟨0, some Reason.directionalDrift⟩ := by
  unfold calculateScalpingScore
  rw [if_neg (by simp [hf]), if_neg hs, hj, hd, if_neg he, if_neg hh,
    if_neg hb, if_pos hdr]

theorem scalp_vol (now : ℝ) (m : Market) (sp b1 a1 b5 a5 : ℝ)
    (hf : m.feesEnabled = false) (hs : ¬ 5 < sp / effTickSize m)
    (hj : findJumpKw m.question = none) (hd : findDecayKw m.question = none)
    (he : ¬ (midPriceOf m < 0.08 ∨ 0.92 < midPriceOf m))
    (hh : ¬ hoursToResOf now m < 48) (hb : ¬ (b1 = 0 ∨ a1 = 0))
    (hdr : calculateDriftPenalty (midPriceOf m) m.oneWeekPriceChange ≠ 0)
    (hjm : calculateJumpRiskPenalty m.question m.oneWeekPriceChange = 0) :
    calculateScalpingScore now m sp b1 a1 b5 a5 =
      ⟨0, some Reason.highWeeklyVolatility⟩ := by
  unfold calculateScalpingScore
  rw [if_neg (by simp [hf]), if_neg hs, hj, hd, if_neg he, if_neg hh,
    if_neg hb, if_neg hdr, if_pos hjm]

theorem scalp_eligible (now : ℝ) (m : Market) (sp b1 a1 b5 a5 : ℝ)
    (hf : m.feesEnabled = false) (hs : ¬ 5 < sp / effTickSize m)
    (hj : findJumpKw m.question = none) (hd : findDecayKw m.question = none)
    (he : ¬ (midPriceOf m < 0.08 ∨ 0.92 < midPriceOf m))
    (hh : ¬ hoursToResOf now m < 48) (hb : ¬ (b1 = 0 ∨ a1 = 0))
    (hdr : calculateDriftPenalty (midPriceOf m) m.oneWeekPriceChange ≠ 0)
    (hjm : calculateJumpRiskPenalty m.question m.oneWeekPriceChange ≠ 0) :
    calculateScalpingScore now m sp b1 a1 b5 a5 =
      ⟨eligibleScore now m sp b1 a1 b5 a5, none⟩ := by
  unfold calculateScalpingScore eligibleScore
  rw [if_neg (by simp [hf]), if_neg hs, hj, hd, if_neg he, if_neg hh,
    if_neg hb, if_neg hdr, if_neg hjm]

theorem scalp_reason_none (now : ℝ) (m : Market) (sp b1 a1 b5 a5 : ℝ)
    (h : (calculateScalpingScore now m sp b1 a1 b5 a5).exclusionReason =
      none) :
    m.feesEnabled = false ∧ ¬ 5 < sp / effTickSize m ∧
      findJumpKw m.question = none ∧ findDecayKw m.question = none ∧
      ¬ (midPriceOf m < 0.08 ∨ 0.92 < midPriceOf m) ∧
      ¬ hoursToResOf now m < 48 ∧ ¬ (b1 = 0 ∨ a1 = 0) ∧
      calculateDriftPenalty (midPriceOf m) m.oneWeekPriceChange ≠ 0 ∧
      calculateJumpRiskPenalty m.question m.oneWeekPriceChange ≠ 0 := by
  by_cases hf : m.feesEnabled = true
  · rw [scalp_fees now m sp b1 a1 b5 a5 hf] at h
    simp at h
  simp only [Bool.not_eq_true] at hf
  by_cases hs : 5 < sp / effTickSize m
  · rw [scalp_wide now m sp b1 a1 b5 a5 hf hs] at h
    simp at h
  have hj : findJumpKw m.question = none := by
    rcases hjo : findJumpKw m.question with _ | kw
    · rfl
    · rw [scalp_jump now m sp b1 a1 b5 a5 hf hs kw hjo] at h
      simp at h
  have hd : findDecayKw m.question = none := by
    rcases hdo : findDecayKw m.question with _ | kw
    · rfl
    · rw [scalp_decay now m sp b1 a1 b5 a5 hf hs hj kw hdo] at h
      simp at h
  by_cases he : midPriceOf m < 0.08 ∨ 0.92 < midPriceOf m
  · rw [scalp_edge now m sp b1 a1 b5 a5 hf hs hj hd he] at h
    simp at h
  by_cases hh : hoursToResOf now m < 48
  · rw [scalp_hours now m sp b1 a1 b5 a5 hf hs hj hd he hh] at h
    simp at h
  by_cases hb : b1 = 0 ∨ a1 = 0
  · rw [scalp_oneSided now m sp b1 a1 b5 a5 hf hs hj hd he hh hb] at h
    simp at h
  by_cases hdr :
      calculateDriftPenalty (midPriceOf m) m.oneWeekPriceChange = 0
  · rw [scalp_drift now m sp b1 a1 b5 a5 hf hs hj hd he hh hb hdr] at h
    simp at h
  by_cases hjm :
      calculateJumpRiskPenalty m.question m.oneWeekPriceChange = 0
  · rw [scalp_vol now m sp b1 a1 b5 a5 hf hs hj hd he hh hb hdr hjm] at h
    simp at h
  exact ⟨hf, hs, hj, hd, he, hh, hb, hdr, hjm⟩

theorem logb10_pow (n : ℕ) : Real.logb 10 ((10 : ℝ) ^ n) = n := by
  rw [Real.logb_pow, Real.logb_self_eq_one (by norm_num)]
  ring

theorem eventPenalty_bounds (q : String) :
    0 < calculateEventResolutionPenalty q ∧
      calculateEventResolutionPenalty q ≤ 1 := by
  unfold calculateEventResolutionPenalty
  split_ifs <;> norm_num

theorem jumpPenalty_bounds (q : String) (chg : ℝ) :
    0 ≤ calculateJumpRiskPenalty q chg ∧ calculateJumpRiskPenalty q chg ≤ 1 := by
  unfold calculateJumpRiskPenalty
  split_ifs <;> norm_num

theorem driftPenalty_bounds (p chg : ℝ) :
    0 ≤ calculateDriftPenalty p chg ∧ calculateDriftPenalty p chg ≤ 1.2 := by
  unfold calculateDriftPenalty
  split_ifs <;> norm_num

theorem spreadScoreOf_bounds (t : ℝ) :
    0 ≤ spreadScoreOf t ∧ spreadScoreOf t ≤ 100 := by
  unfold spreadScoreOf
  split_ifs <;> norm_num

theorem timeScoreOf_bounds (h : ℝ) :
    0 ≤ timeScoreOf h ∧ timeScoreOf h ≤ 100 := by
  unfold timeScoreOf
  split_ifs <;> norm_num

theorem churnScore_le (v24 v7 : ℝ) : calculateVolumeChurnScore v24 v7 ≤ 100 := by
  unfold calculateVolumeChurnScore
  dsimp only
  set r := v24 / (if v7 = 0 then 1 else v7) with hr
  split_ifs with h
  · apply max_le (by norm_num)
    nlinarith
  · set base := min 100 (Real.logb 10 (v24 + 1) * 20) with hbase
    have hfle : max 0.5 (min 1.3 (1 - |r - 1 / 7| * 4)) ≤ 1 := by
      apply max_le (by norm_num)
      have h1 : min 1.3 (1 - |r - 1 / 7| * 4) ≤ 1 - |r - 1 / 7| * 4 :=
        min_le_right _ _
      nlinarith [abs_nonneg (r - 1 / 7)]
    have hf0 : (0 : ℝ) < max 0.5 (min 1.3 (1 - |r - 1 / 7| * 4)) :=
      lt_of_lt_of_le (by norm_num) (le_max_left _ _)
    rcases le_or_lt 0 base with hb | hb
    · have h1 : base * max 0.5 (min 1.3 (1 - |r - 1 / 7| * 4)) ≤ base * 1 :=
        mul_le_mul_of_nonneg_left hfle hb
      have h2 : base ≤ 100 := min_le_left _ _
      nlinarith
    · nlinarith

theorem depthScore_bounds (b1 a1 b5 a5 : ℝ) (h1 : 0 ≤ b1) (h15 : b1 ≤ b5)
    (h2 : 0 ≤ a1) (h25 : a1 ≤ a5) :
    0 ≤ calculateDepthQualityScore b1 a1 b5 a5 ∧
      calculateDepthQualityScore b1 a1 b5 a5 ≤ 130 := by
  unfold calculateDepthQualityScore
  dsimp only
  split_ifs with ht hz
  · norm_num
  · norm_num
  · push_neg at hz
    have hb1 : 0 < b1 := lt_of_le_of_ne h1 (Ne.symm hz.1)
    have ha1 : 0 < a1 := lt_of_le_of_ne h2 (Ne.symm hz.2)
    have htot : 0 < b5 + a5 := by linarith
    have hbase0 : 0 ≤ min 100 (Real.logb 10 (b5 + a5 + 1) * 30) :=
      le_min (by norm_num)
        (mul_nonneg (Real.logb_nonneg (by norm_num) (by linarith)) (by norm_num))
    have hbase100 : min 100 (Real.logb 10 (b5 + a5 + 1) * 30) ≤ 100 :=
      min_le_left _ _
    have habs : |b5 - a5| ≤ b5 + a5 := abs_le.mpr ⟨by linarith, by linarith⟩
    have hsym0 : 0 ≤ 1 - |b5 - a5| / (b5 + a5) := by
      have := (div_le_one htot).mpr habs
      linarith
    have hsym1 : 1 - |b5 - a5| / (b5 + a5) ≤ 1 := by
      have := div_nonneg (abs_nonneg (b5 - a5)) (le_of_lt htot)
      linarith
    have hlay0 : (1 : ℝ) ≤
        min 1.3 (1 + Real.logb 10 ((b5 - b1) + (a5 - a1) + 2) * 0.1) := by
      apply le_min (by norm_num)
      have : (0 : ℝ) ≤ Real.logb 10 ((b5 - b1) + (a5 - a1) + 2) :=
        Real.logb_nonneg (by norm_num) (by linarith)
      nlinarith
    have hlay13 :
        min 1.3 (1 + Real.logb 10 ((b5 - b1) + (a5 - a1) + 2) * 0.1) ≤ 1.3 :=
      min_le_left _ _
    constructor
    · apply mul_nonneg (mul_nonneg hbase0 hsym0) (by linarith)
    · have hstep : min 100 (Real.logb 10 (b5 + a5 + 1) * 30) *
          (1 - |b5 - a5| / (b5 + a5)) ≤ 100 * 1 :=
        mul_le_mul hbase100 hsym1 hsym0 (by norm_num)
      have := mul_le_mul hstep hlay13 (by linarith)
        (by norm_num : (0 : ℝ) ≤ 100 * 1)
      nlinarith

theorem toFixed2_nonneg {x : ℝ} (h : 0 ≤ x) : 0 ≤ toFixed2 x := by
  unfold toFixed2
  have h1 : (0 : ℤ) ≤ round (x * 100) := by
    rw [round_eq]
    exact Int.le_floor.mpr (by push_cast; linarith)
  have h2 : (0 : ℝ) ≤ ((round (x * 100) : ℤ) : ℝ) := Int.cast_nonneg.mpr h1
  linarith

theorem toFixed2_le_of {x : ℝ} (k : ℤ) (h : x * 100 ≤ (k : ℝ)) :
    toFixed2 x ≤ (k : ℝ) / 100 := by
  unfold toFixed2
  have h1 : round (x * 100) ≤ k := by
    rw [round_eq]
    exact Int.floor_le_iff.mpr (by linarith)
  have h2 : ((round (x * 100) : ℤ) : ℝ) ≤ (k : ℝ) := Int.cast_le.mpr h1
  linarith

theorem weighted_composite_le (S C RD Q T E J : ℝ) (hS0 : 0 ≤ S)
    (hS1 : S ≤ 100) (hC1 : C ≤ 100) (hRD0 : 0 ≤ RD) (hRD1 : RD ≤ 120)
    (hQ0 : 0 ≤ Q) (hQ1 : Q ≤ 130) (hT0 : 0 ≤ T) (hT1 : T ≤ 100)
    (hE0 : 0 < E) (hE1 : E ≤ 1) (hJ0 : 0 ≤ J) (hJ1 : J ≤ 1) :
    (S * 0.25 + C * 0.25 + RD * 0.20 + Q * 0.15 + T * 0.10) * E * J ≤
      103.5 := by
  have hrawle : S * 0.25 + C * 0.25 + RD * 0.20 + Q * 0.15 + T * 0.10 ≤
      103.5 := by linarith
  rcases le_or_lt 0 (S * 0.25 + C * 0.25 + RD * 0.20 + Q * 0.15 + T * 0.10)
    with h0 | h0
  · have h1 : (S * 0.25 + C * 0.25 + RD * 0.20 + Q * 0.15 + T * 0.10) * E ≤
        S * 0.25 + C * 0.25 + RD * 0.20 + Q * 0.15 + T * 0.10 :=
      mul_le_of_le_one_right h0 hE1
    have h2 : 0 ≤ (S * 0.25 + C * 0.25 + RD * 0.20 + Q * 0.15 + T * 0.10) *
        E := mul_nonneg h0 (le_of_lt hE0)
    have h3 : (S * 0.25 + C * 0.25 + RD * 0.20 + Q * 0.15 + T * 0.10) * E *
        J ≤ (S * 0.25 + C * 0.25 + RD * 0.20 + Q * 0.15 + T * 0.10) * E :=
      mul_le_of_le_one_right h2 hJ1
    linarith
  · have h1 : (S * 0.25 + C * 0.25 + RD * 0.20 + Q * 0.15 + T * 0.10) * E <
        0 := mul_neg_of_neg_of_pos h0 hE0
    have h2 : (S * 0.25 + C * 0.25 + RD * 0.20 + Q * 0.15 + T * 0.10) * E *
        J ≤ 0 := mul_nonpos_of_nonpos_of_nonneg (le_of_lt h1) hJ0
    linarith

theorem eligibleScore_bounds (now : ℝ) (m : Market) (sp b1 a1 b5 a5 : ℝ)
    (hd1 : 0 ≤ b1) (hd15 : b1 ≤ b5) (hd2 : 0 ≤ a1) (hd25 : a1 ≤ a5) :
    0 ≤ eligibleScore now m sp b1 a1 b5 a5 ∧
      eligibleScore now m sp b1 a1 b5 a5 ≤ 103.5 := by
  unfold eligibleScore
  obtain ⟨hS0, hS1⟩ := spreadScoreOf_bounds (sp / effTickSize m)
  have hC1 := churnScore_le m.volume24hr m.volume1wk
  obtain ⟨hD0, hD1⟩ :=
    driftPenalty_bounds (midPriceOf m) m.oneWeekPriceChange
  obtain ⟨hQ0, hQ1⟩ := depthScore_bounds b1 a1 b5 a5 hd1 hd15 hd2 hd25
  obtain ⟨hT0, hT1⟩ := timeScoreOf_bounds (hoursToResOf now m)
  obtain ⟨hE0, hE1⟩ := eventPenalty_bounds m.question
  obtain ⟨hJ0, hJ1⟩ :=
    jumpPenalty_bounds m.question m.oneWeekPriceChange
  set S := spreadScoreOf (sp / effTickSize m)
  set C := calculateVolumeChurnScore m.volume24hr m.volume1wk
  set D := calculateDriftPenalty (midPriceOf m) m.oneWeekPriceChange
  set Q := calculateDepthQualityScore b1 a1 b5 a5
  set T := timeScoreOf (hoursToResOf now m)
  set E := calculateEventResolutionPenalty m.question
  set J := calculateJumpRiskPenalty m.question m.oneWeekPriceChange
  set R := max 0 (100 - |midPriceOf m - 0.5| * 180) with hR
  have hR0 : (0 : ℝ) ≤ R := le_max_left _ _
  have hR1 : R ≤ 100 := by
    apply max_le (by norm_num)
    have := abs_nonneg (midPriceOf m - 0.5)
    nlinarith
  have hRD1 : R * D ≤ 120 := by
    have := mul_le_mul hR1 hD1 hD0 (by norm_num : (0 : ℝ) ≤ 100)
    nlinarith
  have hRD0 : 0 ≤ R * D := mul_nonneg hR0 hD0
  have hfs := weighted_composite_le S C (R * D) Q T E J hS0 hS1 hC1 hRD0
    hRD1 hQ0 hQ1 hT0 hT1 hE0 hE1 hJ0 hJ1
  have hy0 : (0 : ℝ) ≤
      max 0 ((S * 0.25 + C * 0.25 + R * D * 0.20 + Q * 0.15 + T * 0.10) *
        E * J) := le_max_left _ _
  have hy1 : max 0 ((S * 0.25 + C * 0.25 + R * D * 0.20 + Q * 0.15 +
      T * 0.10) * E * J) ≤ 103.5 := max_le (by norm_num) hfs
  constructor
  · exact toFixed2_nonneg hy0
  · have h103 : toFixed2 (max 0 ((S * 0.25 + C * 0.25 + R * D * 0.20 +
        Q * 0.15 + T * 0.10) * E * J)) ≤ ((10350 : ℤ) : ℝ) / 100 :=
      toFixed2_le_of 10350 (by push_cast; linarith)
    push_cast at h103
    linarith

theorem scalp_cases (now : ℝ) (m : Market) (sp b1 a1 b5 a5 : ℝ) :
    (∃ r, calculateScalpingScore now m sp b1 a1 b5 a5 = ⟨0, some r⟩) ∨
      calculateScalpingScore now m sp b1 a1 b5 a5 =
        ⟨eligibleScore now m sp b1 a1 b5 a5, none⟩ := by
  by_cases hf : m.feesEnabled = true
  · exact Or.inl ⟨_, scalp_fees now m sp b1 a1 b5 a5 hf⟩
  simp only [Bool.not_eq_true] at hf
  by_cases hs : 5 < sp / effTickSize m
  · exact Or.inl ⟨_, scalp_wide now m sp b1 a1 b5 a5 hf hs⟩
  cases hjo : findJumpKw m.question with
  | some kw => exact Or.inl ⟨_, scalp_jump now m sp b1 a1 b5 a5 hf hs kw hjo⟩
  | none =>
  cases hdo : findDecayKw m.question with
  | some kw =>
    exact Or.inl ⟨_, scalp_decay now m sp b1 a1 b5 a5 hf hs hjo kw hdo⟩
  | none =>
  by_cases he : midPriceOf m < 0.08 ∨ 0.92 < midPriceOf m
  · exact Or.inl ⟨_, scalp_edge now m sp b1 a1 b5 a5 hf hs hjo hdo he⟩
  by_cases hh : hoursToResOf now m < 48
  · exact Or.inl ⟨_, scalp_hours now m sp b1 a1 b5 a5 hf hs hjo hdo he hh⟩
  by_cases hb : b1 = 0 ∨ a1 = 0
  · exact Or.inl ⟨_, scalp_oneSided now m sp b1 a1 b5 a5 hf hs hjo hdo he hh
      hb⟩
  by_cases hdr : calculateDriftPenalty (midPriceOf m) m.oneWeekPriceChange = 0
  · exact Or.inl ⟨_, scalp_drift now m sp b1 a1 b5 a5 hf hs hjo hdo he hh hb
      hdr⟩
  by_cases hjm : calculateJumpRiskPenalty m.question m.oneWeekPriceChange = 0
  · exact Or.inl ⟨_, scalp_vol now m sp b1 a1 b5 a5 hf hs hjo hdo he hh hb
      hdr hjm⟩
  exact Or.inr (scalp_eligible now m sp b1 a1 b5 a5 hf hs hjo hdo he hh hb
    hdr hjm)

theorem sum_filter_le (l : List Level) (p q : Level → Bool)
    (hpq : ∀ x ∈ l, p x = true → q x = true)
    (hs : ∀ x ∈ l, 0 ≤ x.size) :
    ((l.filter p).map Level.size).sum ≤ ((l.filter q).map Level.size).sum := by
  induction l with
  | nil => simp
  | cons a l ih =>
    have ha := hs a (by simp)
    have ih2 := ih (fun x hx h => hpq x (by simp [hx]) h)
      (fun x hx => hs x (by simp [hx]))
    by_cases hp : p a = true
    · have hq := hpq a (by simp) hp
      simp only [List.filter_cons, hp, hq, if_true, List.map_cons,
        List.sum_cons]
      linarith
    · have hp2 : p a = false := by simpa using hp
      by_cases hq : q a = true
      · simp only [List.filter_cons, hp2, hq, if_true, Bool.false_eq_true,
          if_false, List.map_cons, List.sum_cons]
        linarith
      · have hq2 : q a = false := by simpa using hq
        simp only [List.filter_cons, hp2, hq2, Bool.false_eq_true, if_false]
        exact ih2

theorem driftPenalty_eq_stable (p chg : ℝ) (h1 : ¬ p < 0.15)
    (h2 : ¬ 0.85 < p) (h3 : |chg| < 0.03) :
    calculateDriftPenalty p chg = 1.2 := by
  unfold calculateDriftPenalty
  rw [if_neg (by tauto), if_neg (by tauto), if_neg (by tauto), if_pos h3]

theorem jumpPenalty_eq_one (q : String) (chg : ℝ)
    (hk : (JUMP_RISK_KEYWORDS.any fun kw => containsKw q kw) = false)
    (h : ¬ 0.10 < |chg|) : calculateJumpRiskPenalty q chg = 1 := by
  unfold calculateJumpRiskPenalty
  push_neg at h
  rw [if_neg (by simp [hk]), if_neg (by push_neg; linarith),
    if_neg (by push_neg; linarith), if_neg (by push_neg; linarith)]
  norm_num

theorem toFixed2_intDiv (k : ℤ) :
    toFixed2 ((k : ℝ) / 100) = (k : ℝ) / 100 := by
  unfold toFixed2
  rw [show ((k : ℝ) / 100 * 100) = (k : ℝ) by ring, round_intCast]

theorem eventPenalty_sunny :
    calculateEventResolutionPenalty "Is it sunny?" = 1 := by
  unfold calculateEventResolutionPenalty
  rw [if_neg (by decide), if_neg (by decide)]
  norm_num

theorem churn_highscore : calculateVolumeChurnScore 99999 699993 = 100 := by
  unfold calculateVolumeChurnScore
  dsimp only
  rw [if_neg (by norm_num : ¬(699993 : ℝ) = 0),
    if_neg (by norm_num : ¬(0.3 : ℝ) < 99999 / 699993)]
  rw [show (99999 : ℝ) + 1 = 10 ^ (5 : ℕ) by norm_num, logb10_pow]
  push_cast
  norm_num [min_def, max_def]

theorem depth_highscore :
    calculateDepthQualityScore 0.5 0.5 4999.5 4999.5 = 130 := by
  unfold calculateDepthQualityScore
  dsimp only
  rw [if_neg (by norm_num), if_neg (by norm_num)]
  rw [show (4999.5 : ℝ) + 4999.5 + 1 = 10 ^ (4 : ℕ) by norm_num,
    show (4999.5 : ℝ) - 0.5 + ((4999.5 : ℝ) - 0.5) + 2 = 10 ^ (4 : ℕ) by
      norm_num,
    logb10_pow]
  push_cast
  norm_num [min_def, max_def]

theorem highScore_eval :
    calculateScalpingScore 0 mkHighScore 0.01 0.5 0.5 4999.5 4999.5 =
      ⟨103.5, none⟩ := by
  have heff : effTickSize mkHighScore = 0.01 := by
    norm_num [effTickSize, mkHighScore]
  have hmid : midPriceOf mkHighScore = 0.5 := by simp [midPriceOf, mkHighScore]
  have hchg : mkHighScore.oneWeekPriceChange = 0 := rfl
  have hdr12 : calculateDriftPenalty (midPriceOf mkHighScore)
      mkHighScore.oneWeekPriceChange = 1.2 := by
    rw [hmid, hchg]
    exact driftPenalty_eq_stable _ _ (by norm_num) (by norm_num) (by norm_num)
  have hjp : calculateJumpRiskPenalty mkHighScore.question
      mkHighScore.oneWeekPriceChange = 1 := by
    rw [hchg]
    exact jumpPenalty_eq_one _ _ (by decide) (by norm_num)
  have heq := scalp_eligible 0 mkHighScore 0.01 0.5 0.5 4999.5 4999.5
    rfl
    (by rw [heff]; norm_num)
    (by decide) (by decide)
    (by rw [hmid]; norm_num)
    (by norm_num [hoursToResOf, mkHighScore])
    (by norm_num)
    (by rw [hdr12]; norm_num)
    (by rw [hjp]; norm_num)
  rw [heq]
  have hsp : spreadScoreOf (0.01 / effTickSize mkHighScore) = 100 := by
    rw [heff]
    unfold spreadScoreOf
    rw [if_pos (by norm_num)]
  have hch : calculateVolumeChurnScore mkHighScore.volume24hr
      mkHighScore.volume1wk = 100 := churn_highscore
  have hrev : max 0 (100 - |midPriceOf mkHighScore - 0.5| * 180) = 100 := by
    rw [hmid]
    norm_num [max_def]
  have hti : timeScoreOf (hoursToResOf 0 mkHighScore) = 100 := by
    rw [show hoursToResOf 0 mkHighScore = 1000 by
      norm_num [hoursToResOf, mkHighScore]]
    unfold timeScoreOf
    rw [if_neg (by norm_num), if_neg (by norm_num), if_pos (by norm_num)]
  have hev : calculateEventResolutionPenalty mkHighScore.question = 1 :=
    eventPenalty_sunny
  unfold eligibleScore
  rw [hsp, hch, hrev, hdr12, hti, hev, hjp, depth_highscore]
  rw [show (100 * 0.25 + 100 * 0.25 + 100 * 1.2 * 0.20 + 130 * 0.15 +
    100 * 0.10 : ℝ) * 1 * 1 = 103.5 by norm_num]
  rw [show max 0 (103.5 : ℝ) = 103.5 by norm_num [max_def]]
  rw [show (103.5 : ℝ) = ((10350 : ℤ) : ℝ) / 100 by norm_num, toFixed2_intDiv]

theorem sortB_crossed : sortBidsDesc [(⟨0.52, 4.5⟩ : Level)] =
    [(⟨0.52, 4.5⟩ : Level)] := rfl

theorem sortA_crossed : sortAsksAsc [(⟨0.51, 4.5⟩ : Level)] =
    [(⟨0.51, 4.5⟩ : Level)] := rfl

theorem getDepth_crossed_bids (t : ℝ) (ht : 0 ≤ t) :
    getDepth mkEligible [(⟨0.52, 4.5⟩ : Level)] [(⟨0.51, 4.5⟩ : Level)] t
      Side.bids 0.52 = 4.5 := by
  unfold getDepth
  dsimp only
  rw [show effTickSize mkEligible = 0.01 from by
    norm_num [effTickSize, mkEligible]]
  rw [List.filter_cons, if_pos (by
    simp only [decide_eq_true_eq]
    nlinarith)]
  simp

theorem getDepth_crossed_asks (t : ℝ) (ht : 0 ≤ t) :
    getDepth mkEligible [(⟨0.52, 4.5⟩ : Level)] [(⟨0.51, 4.5⟩ : Level)] t
      Side.asks 0.51 = 4.5 := by
  unfold getDepth
  dsimp only
  rw [show effTickSize mkEligible = 0.01 from by
    norm_num [effTickSize, mkEligible]]
  rw [List.filter_cons, if_pos (by
    simp only [decide_eq_true_eq]
    nlinarith)]
  simp

theorem crossed_score_eval :
    calculateScalpingScore 0 mkEligible (0.51 - 0.52) 4.5 4.5 4.5 4.5 =
      ⟨eligibleScore 0 mkEligible (0.51 - 0.52) 4.5 4.5 4.5 4.5, none⟩ := by
  have heff : effTickSize mkEligible = 0.01 := by
    norm_num [effTickSize, mkEligible]
  have hmid : midPriceOf mkEligible = 0.5 := by simp [midPriceOf, mkEligible]
  have hchg : mkEligible.oneWeekPriceChange = 0 := rfl
  exact scalp_eligible 0 mkEligible (0.51 - 0.52) 4.5 4.5 4.5 4.5
    rfl
    (by rw [heff]; norm_num)
    (by decide) (by decide)
    (by rw [hmid]; norm_num)
    (by norm_num [hoursToResOf, mkEligible])
    (by norm_num)
    (by
      rw [hmid, hchg, driftPenalty_eq_stable _ _ (by norm_num) (by norm_num)
        (by norm_num)]
      norm_num)
    (by
      rw [hchg, jumpPenalty_eq_one _ _ (by decide) (by norm_num)]
      norm_num)

theorem processMarket_crossed_eval :
    processMarket 0 mkEligible (some bookCrossed) =
      ⟨some (0.51 - 0.52), some 0.52, some 0.51,
        (calculateScalpingScore 0 mkEligible (0.51 - 0.52) 4.5 4.5 4.5
          4.5).score,
        (calculateScalpingScore 0 mkEligible (0.51 - 0.52) 4.5 4.5 4.5
          4.5).exclusionReason⟩ := by
  unfold processMarket bookCrossed
  dsimp only
  rw [if_neg (by norm_num)]
  rw [sortB_crossed, sortA_crossed]
  dsimp only [List.headI]
  rw [getDepth_crossed_bids 1 (by norm_num), getDepth_crossed_asks 1
    (by norm_num), getDepth_crossed_bids 5 (by norm_num),
    getDepth_crossed_asks 5 (by norm_num)]

theorem scalp_reason_inv (now : ℝ) (m : Market) (sp b1 a1 b5 a5 : ℝ)
    (r : Reason)
    (h : (calculateScalpingScore now m sp b1 a1 b5 a5).exclusionReason =
      some r) :
    r = Reason.feesEnabled ∨
    (r = Reason.spreadTooWide ∧ 5 < sp / effTickSize m) ∨
    (∃ kw, r = Reason.jumpRisk kw) ∨
    (∃ kw, r = Reason.structuralDecay kw) ∨
    (r = Reason.priceAtEdge (midPriceOf m) ∧
      (midPriceOf m < 0.08 ∨ 0.92 < midPriceOf m)) ∨
    r = Reason.lessThan48Hours ∨ r = Reason.oneSidedBook ∨
    r = Reason.directionalDrift ∨ r = Reason.highWeeklyVolatility := by
  by_cases hf : m.feesEnabled = true
  · rw [scalp_fees now m sp b1 a1 b5 a5 hf] at h
    simp only [Option.some.injEq] at h
    exact Or.inl h.symm
  simp only [Bool.not_eq_true] at hf
  by_cases hs : 5 < sp / effTickSize m
  · rw [scalp_wide now m sp b1 a1 b5 a5 hf hs] at h
    simp only [Option.some.injEq] at h
    exact Or.inr (Or.inl ⟨h.symm, hs⟩)
  cases hjo : findJumpKw m.question with
  | some kw =>
    rw [scalp_jump now m sp b1 a1 b5 a5 hf hs kw hjo] at h
    simp only [Option.some.injEq] at h
    exact Or.inr (Or.inr (Or.inl ⟨kw, h.symm⟩))
  | none =>
  cases hdo : findDecayKw m.question with
  | some kw =>
    rw [scalp_decay now m sp b1 a1 b5 a5 hf hs hjo kw hdo] at h
    simp only [Option.some.injEq] at h
    exact Or.inr (Or.inr (Or.inr (Or.inl ⟨kw, h.symm⟩)))
  | none =>
  by_cases he : midPriceOf m < 0.08 ∨ 0.92 < midPriceOf m
  · rw [scalp_edge now m sp b1 a1 b5 a5 hf hs hjo hdo he] at h
    simp only [Option.some.injEq] at h
    exact Or.inr (Or.inr (Or.inr (Or.inr (Or.inl ⟨h.symm, he⟩))))
  by_cases hh : hoursToResOf now m < 48
  · rw [scalp_hours now m sp b1 a1 b5 a5 hf hs hjo hdo he hh] at h
    simp only [Option.some.injEq] at h
    exact Or.inr (Or.inr (Or.inr (Or.inr (Or.inr (Or.inl h.symm)))))
  by_cases hb : b1 = 0 ∨ a1 = 0
  · rw [scalp_oneSided now m sp b1 a1 b5 a5 hf hs hjo hdo he hh hb] at h
    simp only [Option.some.injEq] at h
    exact Or.inr (Or.inr (Or.inr (Or.inr (Or.inr (Or.inr (Or.inl h.symm))))))
  by_cases hdr : calculateDriftPenalty (midPriceOf m) m.oneWeekPriceChange = 0
  · rw [scalp_drift now m sp b1 a1 b5 a5 hf hs hjo hdo he hh hb hdr] at h
    simp only [Option.some.injEq] at h
    exact Or.inr (Or.inr (Or.inr (Or.inr (Or.inr (Or.inr (Or.inr
      (Or.inl h.symm)))))))
  by_cases hjm : calculateJumpRiskPenalty m.question m.oneWeekPriceChange = 0
  · rw [scalp_vol now m sp b1 a1 b5 a5 hf hs hjo hdo he hh hb hdr hjm] at h
    simp only [Option.some.injEq] at h
    exact Or.inr (Or.inr (Or.inr (Or.inr (Or.inr (Or.inr (Or.inr (Or.inr
      h.symm)))))))
  rw [scalp_eligible now m sp b1 a1 b5 a5 hf hs hjo hdo he hh hb hdr hjm]
    at h
  simp at h

theorem hundredHours_eval_now0 :
    (calculateScalpingScore 0 mkHundredHours 0.01 1 1 1 1).exclusionReason =
      none := by
  have heff : effTickSize mkHundredHours = 0.01 := by
    norm_num [effTickSize, mkHundredHours]
  have hmid : midPriceOf mkHundredHours = 0.5 := by
    simp [midPriceOf, mkHundredHours]
  have hchg : mkHundredHours.oneWeekPriceChange = 0 := rfl
  rw [scalp_eligible 0 mkHundredHours 0.01 1 1 1 1
    rfl
    (by rw [heff]; norm_num)
    (by decide) (by decide)
    (by rw [hmid]; norm_num)
    (by norm_num [hoursToResOf, mkHundredHours])
    (by norm_num)
    (by
      rw [hmid, hchg, driftPenalty_eq_stable _ _ (by norm_num) (by norm_num)
        (by norm_num)]
      norm_num)
    (by
      rw [hchg, jumpPenalty_eq_one _ _ (by decide) (by norm_num)]
      norm_num)]

theorem hundredHours_eval_later :
    calculateScalpingScore 216000000 mkHundredHours 0.01 1 1 1 1 =
      ⟨0, some Reason.lessThan48Hours⟩ := by
  have heff : effTickSize mkHundredHours = 0.01 := by
    norm_num [effTickSize, mkHundredHours]
  have hmid : midPriceOf mkHundredHours = 0.5 := by
    simp [midPriceOf, mkHundredHours]
  exact scalp_hours 216000000 mkHundredHours 0.01 1 1 1 1
    rfl
    (by rw [heff]; norm_num)
    (by decide) (by decide)
    (by rw [hmid]; norm_num)
    (by norm_num [hoursToResOf, mkHundredHours])

/-- C1: every market evaluated by calculateScalpingScore yields either an
exclusion with a reason (and score 0) or an eligible result with a score; the
nine hard-exclusion checks run in the strict order fees, spread over 5 ticks,
jump-risk keyword, structural-decay keyword, price outside the band 0.08 to
0.92, under 48 hours to resolution, zero top-of-book depth, zero drift
penalty, zero volatility penalty, the first match fixing the reported
reason; in particular the structural-decay question of Scenario 3 with
parsed price 0.04 is reported with the keyword reason, not the price edge. -/
theorem C1_exclusion_ladder (now : ℝ) (m : Market) (sp b1 a1 b5 a5 : ℝ) :
    ((∃ r, calculateScalpingScore now m sp b1 a1 b5 a5 = ⟨0, some r⟩) ∨
      (calculateScalpingScore now m sp b1 a1 b5 a5).exclusionReason = none) ∧
    (m.feesEnabled = true →
      calculateScalpingScore now m sp b1 a1 b5 a5 =
        ⟨0, some Reason.feesEnabled⟩) ∧
    (m.feesEnabled = false → 5 < sp / effTickSize m →
      calculateScalpingScore now m sp b1 a1 b5 a5 =
        ⟨0, some Reason.spreadTooWide⟩) ∧
    (m.feesEnabled = false → ¬ 5 < sp / effTickSize m →
      ∀ kw, findJumpKw m.question = some kw →
      calculateScalpingScore now m sp b1 a1 b5 a5 =
        ⟨0, some (Reason.jumpRisk kw)⟩) ∧
    (m.feesEnabled = false → ¬ 5 < sp / effTickSize m →
      findJumpKw m.question = none →
      ∀ kw, findDecayKw m.question = some kw →
      calculateScalpingScore now m sp b1 a1 b5 a5 =
        ⟨0, some (Reason.structuralDecay kw)⟩) ∧
    (m.feesEnabled = false → ¬ 5 < sp / effTickSize m →
      findJumpKw m.question = none → findDecayKw m.question = none →
      midPriceOf m < 0.08 ∨ 0.92 < midPriceOf m →
      calculateScalpingScore now m sp b1 a1 b5 a5 =
        ⟨0, some (Reason.priceAtEdge (midPriceOf m))⟩) ∧
    (m.feesEnabled = false → ¬ 5 < sp / effTickSize m →
      findJumpKw m.question = none → findDecayKw m.question = none →
      ¬ (midPriceOf m < 0.08 ∨ 0.92 < midPriceOf m) →
      hoursToResOf now m < 48 →
      calculateScalpingScore now m sp b1 a1 b5 a5 =
        ⟨0, some Reason.lessThan48Hours⟩) ∧
    (m.feesEnabled = false → ¬ 5 < sp / effTickSize m →
      findJumpKw m.question = none → findDecayKw m.question = none →
      ¬ (midPriceOf m < 0.08 ∨ 0.92 < midPriceOf m) →
      ¬ hoursToResOf now m < 48 → b1 = 0 ∨ a1 = 0 →
      calculateScalpingScore now m sp b1 a1 b5 a5 =
        ⟨0, some Reason.oneSidedBook⟩) ∧
    (m.feesEnabled = false → ¬ 5 < sp / effTickSize m →
      findJumpKw m.question = none → findDecayKw m.question = none →
      ¬ (midPriceOf m < 0.08 ∨ 0.92 < midPriceOf m) →
      ¬ hoursToResOf now m < 48 → ¬ (b1 = 0 ∨ a1 = 0) →
      calculateDriftPenalty (midPriceOf m) m.oneWeekPriceChange = 0 →
      calculateScalpingScore now m sp b1 a1 b5 a5 =
        ⟨0, some Reason.directionalDrift⟩) ∧
    (m.feesEnabled = false → ¬ 5 < sp / effTickSize m →
      findJumpKw m.question = none → findDecayKw m.question = none →
      ¬ (midPriceOf m < 0.08 ∨ 0.92 < midPriceOf m) →
      ¬ hoursToResOf now m < 48 → ¬ (b1 = 0 ∨ a1 = 0) →
      calculateDriftPenalty (midPriceOf m) m.oneWeekPriceChange ≠ 0 →
      calculateJumpRiskPenalty m.question m.oneWeekPriceChange = 0 →
      calculateScalpingScore now m sp b1 a1 b5 a5 =
        ⟨0, some Reason.highWeeklyVolatility⟩) ∧
    (m.feesEnabled = false → ¬ 5 < sp / effTickSize m →
      findJumpKw m.question = none → findDecayKw m.question = none →
      ¬ (midPriceOf m < 0.08 ∨ 0.92 < midPriceOf m) →
      ¬ hoursToResOf now m < 48 → ¬ (b1 = 0 ∨ a1 = 0) →
      calculateDriftPenalty (midPriceOf m) m.oneWeekPriceChange ≠ 0 →
      calculateJumpRiskPenalty m.question m.oneWeekPriceChange ≠ 0 →
      (calculateScalpingScore now m sp b1 a1 b5 a5).exclusionReason =
        none) ∧
    calculateScalpingScore 0 mkScenario3 0.01 1 1 1 1 =
      ⟨0, some (Reason.structuralDecay "win the championship")⟩ := by
  refine ⟨?_, ?_, ?_, ?_, ?_, ?_, ?_, ?_, ?_, ?_, ?_, ?_⟩
  · rcases scalp_cases now m sp b1 a1 b5 a5 with ⟨r, h⟩ | h
    · exact Or.inl ⟨r, h⟩
    · exact Or.inr (by rw [h])
  · exact fun hf => scalp_fees now m sp b1 a1 b5 a5 hf
  · exact fun hf hs => scalp_wide now m sp b1 a1 b5 a5 hf hs
  · exact fun hf hs kw hj => scalp_jump now m sp b1 a1 b5 a5 hf hs kw hj
  · exact fun hf hs hj kw hd => scalp_decay now m sp b1 a1 b5 a5 hf hs hj kw
      hd
  · exact fun hf hs hj hd he => scalp_edge now m sp b1 a1 b5 a5 hf hs hj hd
      he
  · exact fun hf hs hj hd he hh => scalp_hours now m sp b1 a1 b5 a5 hf hs hj
      hd he hh
  · exact fun hf hs hj hd he hh hb => scalp_oneSided now m sp b1 a1 b5 a5 hf
      hs hj hd he hh hb
  · exact fun hf hs hj hd he hh hb hdr => scalp_drift now m sp b1 a1 b5 a5
      hf hs hj hd he hh hb hdr
  · exact fun hf hs hj hd he hh hb hdr hjm => scalp_vol now m sp b1 a1 b5 a5
      hf hs hj hd he hh hb hdr hjm
  · intro hf hs hj hd he hh hb hdr hjm
    rw [scalp_eligible now m sp b1 a1 b5 a5 hf hs hj hd he hh hb hdr hjm]
  · exact scalp_decay 0 mkScenario3 0.01 1 1 1 1 rfl
      (by norm_num [effTickSize, mkScenario3]) (by decide)
      "win the championship" (by decide)

theorem C1_exclusion_ladder_witness :
    calculateScalpingScore 0 mkSunnyWide 1 1 1 1 1 =
      ⟨0, some Reason.spreadTooWide⟩ :=
  (C1_exclusion_ladder 0 mkSunnyWide 1 1 1 1 1).2.2.1 rfl
    (by norm_num [effTickSize, mkSunnyWide])

/-- C2 counterexample: a concrete Eligible market (exact-logarithm volumes
and depths, mid price one half, stable week) whose composite score is 103.5,
strictly above 100, refuting the claimed upper bound of 100. -/
theorem C2_score_above_100_cex :
    (calculateScalpingScore 0 mkHighScore 0.01 0.5 0.5 4999.5
      4999.5).exclusionReason = none ∧
    100 < (calculateScalpingScore 0 mkHighScore 0.01 0.5 0.5 4999.5
      4999.5).score := by
  rw [highScore_eval]
  exact ⟨rfl, by norm_num⟩

/-- C2 (amended): for depth inputs that are nonnegative and monotone in the
band (as every book with nonnegative sizes produces), an Eligible market's
composite score lies in the interval 0 to 103.5 — it can exceed 100, up to
103.5 — and an Excluded market's score is exactly 0. -/
theorem C2_score_bounds_amended (now : ℝ) (m : Market) (sp b1 a1 b5 a5 : ℝ)
    (hd1 : 0 ≤ b1) (hd15 : b1 ≤ b5) (hd2 : 0 ≤ a1) (hd25 : a1 ≤ a5) :
    ((calculateScalpingScore now m sp b1 a1 b5 a5).exclusionReason = none →
      0 ≤ (calculateScalpingScore now m sp b1 a1 b5 a5).score ∧
        (calculateScalpingScore now m sp b1 a1 b5 a5).score ≤ 103.5) ∧
    (∀ r, (calculateScalpingScore now m sp b1 a1 b5 a5).exclusionReason =
      some r → (calculateScalpingScore now m sp b1 a1 b5 a5).score = 0) := by
  constructor
  · intro hnone
    obtain ⟨hf, hs, hj, hd, he, hh, hb, hdr, hjm⟩ :=
      scalp_reason_none now m sp b1 a1 b5 a5 hnone
    rw [scalp_eligible now m sp b1 a1 b5 a5 hf hs hj hd he hh hb hdr hjm]
    exact eligibleScore_bounds now m sp b1 a1 b5 a5 hd1 hd15 hd2 hd25
  · intro r hr
    rcases scalp_cases now m sp b1 a1 b5 a5 with ⟨r2, h⟩ | h
    · rw [h]
    · rw [h] at hr
      simp at hr

theorem C2_score_bounds_amended_witness :
    0 ≤ (calculateScalpingScore 0 mkHighScore 0.01 0.5 0.5 4999.5
      4999.5).score ∧
    (calculateScalpingScore 0 mkHighScore 0.01 0.5 0.5 4999.5 4999.5).score ≤
      103.5 :=
  (C2_score_bounds_amended 0 mkHighScore 0.01 0.5 0.5 4999.5 4999.5
    (by norm_num) (by norm_num) (by norm_num) (by norm_num)).1
    (by rw [highScore_eval])

/-- C3 counterexample: a crossed book (best ask 0.51 strictly below best bid
0.52) around an otherwise unremarkable market flows through the pipeline with
its negative spread intact and is NOT excluded: the evaluation is fully
Eligible, refuting the claim that every crossed book is excluded via the
wide-spread or price-edge path. -/
theorem C3_crossed_book_eligible_cex :
    (processMarket 0 mkEligible (some bookCrossed)).spread = some (-0.01) ∧
    (processMarket 0 mkEligible (some bookCrossed)).exclusionReason =
      none := by
  rw [processMarket_crossed_eval]
  constructor
  · show some ((0.51 : ℝ) - 0.52) = some (-0.01)
    norm_num
  · show (calculateScalpingScore 0 mkEligible (0.51 - 0.52) 4.5 4.5 4.5
      4.5).exclusionReason = none
    rw [crossed_score_eval]

/-- C3 (amended): a crossed book yields a negative spread that is passed to
the evaluator unmodified and never triggers the wide-spread exclusion (a
negative spread in ticks is below the 5-tick cutoff); evaluation is total
(no crash) and the market may be excluded only by the other checks — or be
fully Eligible. -/
theorem C3_crossed_book_amended (now : ℝ) (m : Market) (sp b1 a1 b5 a5 : ℝ)
    (hneg : sp < 0) (htick : 0 ≤ m.orderPriceMinTickSize) :
    (calculateScalpingScore now m sp b1 a1 b5 a5).exclusionReason ≠
      some Reason.spreadTooWide := by
  have htp : 0 < effTickSize m := by
    unfold effTickSize
    split_ifs with h
    · norm_num
    · exact lt_of_le_of_ne htick (Ne.symm h)
  have hs : ¬ 5 < sp / effTickSize m := by
    push_neg
    have := div_neg_of_neg_of_pos hneg htp
    linarith
  intro hcon
  rcases scalp_reason_inv now m sp b1 a1 b5 a5 Reason.spreadTooWide hcon with
    h | h | h | h | h | h | h | h | h
  · simp at h
  · exact hs h.2
  · obtain ⟨kw, h⟩ := h
    simp at h
  · obtain ⟨kw, h⟩ := h
    simp at h
  · simp at h
  · simp at h
  · simp at h
  · simp at h
  · simp at h

theorem C3_crossed_book_amended_witness :
    (calculateScalpingScore 0 mkEligible (-0.01) 1 1 1 1).exclusionReason ≠
      some Reason.spreadTooWide :=
  C3_crossed_book_amended 0 mkEligible (-0.01) 1 1 1 1 (by norm_num)
    (by norm_num [mkEligible])

/-- C4 counterexample: a market whose order-book fetch fails (none) is kept
in the batch but its record carries exclusionReason null — NOT the
one-sided-or-empty-book reason the claim asserts — with spread null and
score 0; the scoring function is never invoked on it. -/
theorem C4_missing_book_reason_cex :
    (processMarket 0 mkEligible none).exclusionReason = none ∧
    (processMarket 0 mkEligible none).exclusionReason ≠
      some Reason.oneSidedBook ∧
    (processMarket 0 mkEligible none).spread = none ∧
    (processMarket 0 mkEligible none).scalpingScore = 0 :=
  ⟨rfl, by simp [processMarket], rfl, rfl⟩

/-- C4 (amended): the ranking pipeline never aborts the batch — it returns
one record per input market; a market whose book fetch failed, or whose book
is empty on either side, keeps the defaults: spread unavailable (null),
score 0 and no exclusion reason, because the evaluator is never called for
it.  The one-sided-or-empty-book reason arises only from the evaluator on a
both-sided book whose top-of-book depth sums to zero. -/
theorem C4_pipeline_amended (now : ℝ) (fetch : Market → Option OrderBook)
    (ms : List Market) (m : Market) (b : OrderBook)
    (hempty : b.bids.length = 0 ∨ b.asks.length = 0) :
    (scalpingPipeline now fetch ms).length = ms.length ∧
    processMarket now m none = ⟨none, none, none, 0, none⟩ ∧
    processMarket now m (some b) = ⟨none, none, none, 0, none⟩ := by
  refine ⟨?_, rfl, ?_⟩
  · unfold scalpingPipeline
    rw [(List.perm_insertionSort _ _).length_eq, List.length_map]
  · unfold processMarket
    dsimp only
    rw [if_pos hempty]

theorem C4_pipeline_amended_witness :
    (scalpingPipeline 0 (fun _ => none) [mkEligible]).length = 1 ∧
    processMarket 0 mkEligible none = ⟨none, none, none, 0, none⟩ ∧
    processMarket 0 mkEligible (some ⟨[], []⟩) = ⟨none, none, none, 0, none⟩ :=
  C4_pipeline_amended 0 (fun _ => none) [mkEligible] mkEligible ⟨[], []⟩
    (Or.inl rfl)

/-- C5: a market with the fee flag enabled is always Excluded with the fees
reason, whatever its other attributes, its spread and its depths. -/
theorem C5_fees_always_excluded (now : ℝ) (m : Market) (sp b1 a1 b5 a5 : ℝ)
    (hf : m.feesEnabled = true) :
    calculateScalpingScore now m sp b1 a1 b5 a5 =
      ⟨0, some Reason.feesEnabled⟩ :=
  scalp_fees now m sp b1 a1 b5 a5 hf

theorem C5_fees_always_excluded_witness :
    calculateScalpingScore 0 mkSunnyFee 0.01 1 1 1 1 =
      ⟨0, some Reason.feesEnabled⟩ :=
  C5_fees_always_excluded 0 mkSunnyFee 0.01 1 1 1 1 rfl

/-- C6: the drift-penalty function realises exactly the specified table — 0
for a decaying long-shot (price under 0.15 still falling more than 0.05) or
a converging certainty (price over 0.85 still rising more than 0.05), 0.5
for an edge-band price without the matching drift, 1.2 for a stable week
(absolute change under 0.03) away from the edges, 1.0 otherwise — and the
drift multiplier enters the composite of an Eligible market exactly once,
inside the mean-reversion component max(0, 100 - 180 |mid - 0.5|), as the
spec-side composite definition exhibits. -/
theorem C6_drift_penalty :
    (∀ p chg : ℝ,
      (p < 0.15 → chg < -0.05 → calculateDriftPenalty p chg = 0) ∧
      (0.85 < p → 0.05 < chg → calculateDriftPenalty p chg = 0) ∧
      ((p < 0.15 ∨ 0.85 < p) → ¬ (p < 0.15 ∧ chg < -0.05) →
        ¬ (0.85 < p ∧ 0.05 < chg) → calculateDriftPenalty p chg = 0.5) ∧
      (¬ (p < 0.15 ∨ 0.85 < p) → |chg| < 0.03 →
        calculateDriftPenalty p chg = 1.2) ∧
      (¬ (p < 0.15 ∨ 0.85 < p) → ¬ |chg| < 0.03 →
        calculateDriftPenalty p chg = 1.0)) ∧
    (∀ (now : ℝ) (m : Market) (sp b1 a1 b5 a5 : ℝ),
      (calculateScalpingScore now m sp b1 a1 b5 a5).exclusionReason = none →
      (calculateScalpingScore now m sp b1 a1 b5 a5).score =
        specCompositeScore now m sp b1 a1 b5 a5) := by
  constructor
  · intro p chg
    refine ⟨?_, ?_, ?_, ?_, ?_⟩
    · intro h1 h2
      unfold calculateDriftPenalty
      rw [if_pos ⟨h1, h2⟩]
    · intro h1 h2
      unfold calculateDriftPenalty
      rw [if_neg (by intro hc; linarith [hc.1]), if_pos ⟨h1, h2⟩]
    · intro hor h1 h2
      unfold calculateDriftPenalty
      rw [if_neg h1, if_neg h2, if_pos hor]
    · intro hnor h3
      push_neg at hnor
      unfold calculateDriftPenalty
      rw [if_neg (by intro hc; exact absurd hc.1 (not_lt.mpr hnor.1)),
        if_neg (by intro hc; exact absurd hc.1 (not_lt.mpr hnor.2)),
        if_neg (by push_neg; exact ⟨hnor.1, hnor.2⟩), if_pos h3]
    · intro hnor h3
      push_neg at hnor
      unfold calculateDriftPenalty
      rw [if_neg (by intro hc; exact absurd hc.1 (not_lt.mpr hnor.1)),
        if_neg (by intro hc; exact absurd hc.1 (not_lt.mpr hnor.2)),
        if_neg (by push_neg; exact ⟨hnor.1, hnor.2⟩), if_neg h3]
  · intro now m sp b1 a1 b5 a5 hnone
    obtain ⟨hf, hs, hj, hd, he, hh, hb, hdr, hjm⟩ :=
      scalp_reason_none now m sp b1 a1 b5 a5 hnone
    rw [scalp_eligible now m sp b1 a1 b5 a5 hf hs hj hd he hh hb hdr hjm]
    show eligibleScore now m sp b1 a1 b5 a5 =
      specCompositeScore now m sp b1 a1 b5 a5
    unfold eligibleScore specCompositeScore
    rw [mul_comm |midPriceOf m - 0.5| (180 : ℝ)]

theorem C6_drift_penalty_witness :
    calculateDriftPenalty 0.5 0 = 1.2 ∧
    (calculateScalpingScore 0 mkEligible (0.51 - 0.52) 4.5 4.5 4.5
      4.5).score =
      specCompositeScore 0 mkEligible (0.51 - 0.52) 4.5 4.5 4.5 4.5 :=
  ⟨(C6_drift_penalty.1 0.5 0).2.2.2.1 (by norm_num) (by norm_num),
    C6_drift_penalty.2 0 mkEligible (0.51 - 0.52) 4.5 4.5 4.5 4.5
      (by rw [crossed_score_eval])⟩

/-- C7: the jump-risk volatility penalty is exactly 0 when the question
contains a jump-risk keyword and otherwise follows the absolute one-week
change thresholds — above 0.30 gives 0.2, above 0.20 gives 0.5, above 0.10
gives 0.8, else 1.0; in particular a keyword-free question with change 0.35
yields exactly 0.2. -/
theorem C7_jump_risk_penalty :
    (∀ (q : String) (chg : ℝ),
      ((JUMP_RISK_KEYWORDS.any fun kw => containsKw q kw) = true →
        calculateJumpRiskPenalty q chg = 0) ∧
      ((JUMP_RISK_KEYWORDS.any fun kw => containsKw q kw) = false →
        (0.30 < |chg| → calculateJumpRiskPenalty q chg = 0.2) ∧
        (¬ 0.30 < |chg| → 0.20 < |chg| →
          calculateJumpRiskPenalty q chg = 0.5) ∧
        (¬ 0.30 < |chg| → ¬ 0.20 < |chg| → 0.10 < |chg| →
          calculateJumpRiskPenalty q chg = 0.8) ∧
        (¬ 0.30 < |chg| → ¬ 0.20 < |chg| → ¬ 0.10 < |chg| →
          calculateJumpRiskPenalty q chg = 1.0))) ∧
    calculateJumpRiskPenalty "Is it sunny?" 0.35 = 0.2 := by
  constructor
  · intro q chg
    constructor
    · intro hk
      unfold calculateJumpRiskPenalty
      rw [if_pos hk]
    · intro hk
      refine ⟨?_, ?_, ?_, ?_⟩
      · intro h1
        unfold calculateJumpRiskPenalty
        rw [if_neg (by simp [hk]), if_pos h1]
      · intro h1 h2
        unfold calculateJumpRiskPenalty
        rw [if_neg (by simp [hk]), if_neg h1, if_pos h2]
      · intro h1 h2 h3
        unfold calculateJumpRiskPenalty
        rw [if_neg (by simp [hk]), if_neg h1, if_neg h2, if_pos h3]
      · intro h1 h2 h3
        unfold calculateJumpRiskPenalty
        rw [if_neg (by simp [hk]), if_neg h1, if_neg h2, if_neg h3]
  · unfold calculateJumpRiskPenalty
    rw [if_neg (by simp [(by decide :
      (JUMP_RISK_KEYWORDS.any fun kw => containsKw "Is it sunny?" kw) =
        false)]), if_pos (by rw [abs_of_nonneg]; norm_num; norm_num)]

theorem C7_jump_risk_penalty_witness :
    calculateJumpRiskPenalty "Is it sunny?" 0.15 = 0.8 :=
  ((C7_jump_risk_penalty.1 "Is it sunny?" 0.15).2 (by decide)).2.2.1
    (by rw [abs_of_nonneg] <;> norm_num)
    (by rw [abs_of_nonneg] <;> norm_num)
    (by rw [abs_of_nonneg] <;> norm_num)

/-- C8: for any book side with nonnegative level sizes, a nonnegative tick
size (the data model guarantees a positive one) and tick distances
N > M ≥ 1, the banded depth computed by getDepth at N ticks is at least the
banded depth at M ticks on the same side. -/
theorem C8_depth_monotone (m : Market) (sortedBids sortedAsks : List Level)
    (base : ℝ) (side : Side) (M N : ℝ)
    (htick : 0 ≤ m.orderPriceMinTickSize)
    (hbids : ∀ l ∈ sortedBids, 0 ≤ l.size)
    (hasks : ∀ l ∈ sortedAsks, 0 ≤ l.size)
    (h1 : 1 ≤ M) (hMN : M < N) :
    getDepth m sortedBids sortedAsks M side base ≤
      getDepth m sortedBids sortedAsks N side base := by
  have ht : 0 ≤ effTickSize m := by
    unfold effTickSize
    split_ifs with h
    · norm_num
    · exact htick
  have hMt : M * effTickSize m ≤ N * effTickSize m :=
    mul_le_mul_of_nonneg_right (le_of_lt hMN) ht
  cases side with
  | bids =>
    unfold getDepth
    dsimp only
    apply sum_filter_le _ _ _ _ hbids
    intro x _ hpx
    simp only [decide_eq_true_eq] at hpx ⊢
    linarith
  | asks =>
    unfold getDepth
    dsimp only
    apply sum_filter_le _ _ _ _ hasks
    intro x _ hpx
    simp only [decide_eq_true_eq] at hpx ⊢
    linarith

theorem C8_depth_monotone_witness :
    getDepth mkEligible [(⟨0.5, 2⟩ : Level), (⟨0.48, 3⟩ : Level)] [] 1
      Side.bids 0.5 ≤
    getDepth mkEligible [(⟨0.5, 2⟩ : Level), (⟨0.48, 3⟩ : Level)] [] 5
      Side.bids 0.5 :=
  C8_depth_monotone mkEligible [⟨0.5, 2⟩, ⟨0.48, 3⟩] [] 0.5 Side.bids 1 5
    (by norm_num [mkEligible])
    (by
      intro l hl
      rcases List.mem_cons.mp hl with rfl | hl2
      · norm_num
      · rcases List.mem_singleton.mp hl2 with rfl
        norm_num)
    (by intro l hl; simp at hl)
    le_rfl (by norm_num)

/-- C9 counterexample: the evaluator reads the ambient clock, so the same
immutable market and book snapshot evaluated at two different times yields
different results — at time 0 the hundred-hour market is Eligible, sixty
hours later it is excluded for insufficient runway.  The result is therefore
not a function of the snapshot alone. -/
theorem C9_clock_dependence_cex :
    (calculateScalpingScore 0 mkHundredHours 0.01 1 1 1 1).exclusionReason ≠
    (calculateScalpingScore 216000000 mkHundredHours 0.01 1 1 1
      1).exclusionReason := by
  rw [hundredHours_eval_now0, hundredHours_eval_later]
  simp

/-- C9 (amended): at a fixed evaluation time the evaluator is a
deterministic pure function of the snapshot fields — two markets agreeing on
every field produce identical EvaluationResults for the same book data; the
current time is the only input beyond the snapshot. -/
theorem C9_determinism_amended (now : ℝ) (m m2 : Market)
    (sp b1 a1 b5 a5 : ℝ)
    (hq : m.question = m2.question)
    (h24 : m.volume24hr = m2.volume24hr)
    (h1wk : m.volume1wk = m2.volume1wk)
    (hop : m.outcomePricesParsed = m2.outcomePricesParsed)
    (hed : m.endDateMs = m2.endDateMs)
    (hts : m.orderPriceMinTickSize = m2.orderPriceMinTickSize)
    (hfe : m.feesEnabled = m2.feesEnabled)
    (hch : m.oneWeekPriceChange = m2.oneWeekPriceChange) :
    calculateScalpingScore now m sp b1 a1 b5 a5 =
      calculateScalpingScore now m2 sp b1 a1 b5 a5 := by
  cases m
  cases m2
  dsimp only at hq h24 h1wk hop hed hts hfe hch
  subst hq h24 h1wk hop hed hts hfe hch
  rfl

theorem C9_determinism_amended_witness :
    calculateScalpingScore 0 mkHundredHours 0.01 1 1 1 1 =
      calculateScalpingScore 0 mkHundredHours 0.01 1 1 1 1 :=
  C9_determinism_amended 0 mkHundredHours mkHundredHours 0.01 1 1 1 1 rfl
    rfl rfl rfl rfl rfl rfl rfl

/-- C10 counterexample: a successfully JSON-parsed outcomePrices whose first
element is non-numeric makes parseFloat return NaN, which flows through as
the mid price — the code does NOT substitute 0.5 in that case, refuting the
claim for the non-numeric-first-element branch. -/
theorem C10_nan_midprice_cex :
    computeMidPriceJs OutcomeParse.firstElemNonNumeric ≠ JsNum.num 0.5 := by
  unfold computeMidPriceJs
  simp

/-- C10 (amended): when outcomePrices fails to parse as JSON (the parse
throws), the evaluator substitutes midPrice = 0.5: such a market is never
excluded by the price-at-edge check, and when it is Eligible its
mean-reversion component receives the maximal base 100 before the drift
multiplier.  A non-numeric first element, by contrast, yields NaN rather
than 0.5 (see the counterexample). -/
theorem C10_parse_failure_amended (now : ℝ) (m : Market)
    (sp b1 a1 b5 a5 : ℝ) (hp : m.outcomePricesParsed = none) :
    midPriceOf m = 0.5 ∧
    (∀ x, (calculateScalpingScore now m sp b1 a1 b5 a5).exclusionReason ≠
      some (Reason.priceAtEdge x)) ∧
    ((calculateScalpingScore now m sp b1 a1 b5 a5).exclusionReason = none →
      (calculateScalpingScore now m sp b1 a1 b5 a5).score =
        eligibleScore now m sp b1 a1 b5 a5 ∧
      max 0 (100 - |midPriceOf m - 0.5| * 180) = 100) := by
  have hmid : midPriceOf m = 0.5 := by
    unfold midPriceOf
    rw [hp]
  refine ⟨hmid, ?_, ?_⟩
  · intro x hcon
    rcases scalp_reason_inv now m sp b1 a1 b5 a5 (Reason.priceAtEdge x) hcon
      with h | h | h | h | h | h | h | h | h
    · simp at h
    · obtain ⟨h, _⟩ := h
      simp at h
    · obtain ⟨kw, h⟩ := h
      simp at h
    · obtain ⟨kw, h⟩ := h
      simp at h
    · rw [hmid] at h
      have := h.2
      norm_num at this
    · simp at h
    · simp at h
    · simp at h
    · simp at h
  · intro hnone
    obtain ⟨hf, hs, hj, hd, he, hh, hb, hdr, hjm⟩ :=
      scalp_reason_none now m sp b1 a1 b5 a5 hnone
    rw [scalp_eligible now m sp b1 a1 b5 a5 hf hs hj hd he hh hb hdr hjm]
    refine ⟨rfl, ?_⟩
    rw [hmid]
    norm_num [max_def]

theorem C10_parse_failure_amended_witness :
    midPriceOf ⟨"Is it sunny?", 0, 0, none, 3600000000, 0.01, false, 0⟩ =
      0.5 ∧
    (∀ x, (calculateScalpingScore 0
      ⟨"Is it sunny?", 0, 0, none, 3600000000, 0.01, false, 0⟩ 0.01 1 1 1
      1).exclusionReason ≠ some (Reason.priceAtEdge x)) :=
  ⟨(C10_parse_failure_amended 0
      ⟨"Is it sunny?", 0, 0, none, 3600000000, 0.01, false, 0⟩ 0.01 1 1 1 1
      rfl).1,
    (C10_parse_failure_amended 0
      ⟨"Is it sunny?", 0, 0, none, 3600000000, 0.01, false, 0⟩ 0.01 1 1 1 1
      rfl).2.1⟩

end PolyM
